import Mathlib

/-!
Verification development for a single-file WebGPU grid renderer
(src/index.js).  The script acquires a device, uploads a vertex buffer, a
uniform buffer holding the grid dimensions and a storage buffer holding
per-cell activity flags, builds one render pipeline, and submits exactly one
draw call that instances a square over a 32 by 32 grid.

The embedding below follows the source:
  - the WGSL shader functions vertexMain and fragmentMain are embedded as
    pure functions over exact rational arithmetic (every value the program
    actually feeds them is exactly representable in f32, and every operation
    performed on those values is exact in f32, so the rational model agrees
    with the IEEE evaluation on the program inputs);
  - the straight-line script is embedded as a function from the two
    capability flags (navigator.gpu present, adapter obtained) to the list
    of graphics-API operations it performs plus an optional thrown error;
  - the JS typed-array loop that activates every third cell is embedded as
    a recursion over the backing array.
-/

/-- Grid side length, src/index.js line 1. -/
def GRID_SIZE : ℕ := 32

/-- Clear color of the render pass, src/index.js line 2. -/
def BACKGROUND_COLOR : List ℚ := [1/10, 1/10, 1/10, 1]

/-- A WGSL vec2f value, modelled with exact rationals. -/
structure Vec2 where
  x : ℚ
  y : ℚ
deriving DecidableEq

/-- A WGSL vec4f value, modelled with exact rationals. -/
structure Vec4 where
  x : ℚ
  y : ℚ
  z : ℚ
  w : ℚ
deriving DecidableEq

/-- WGSL floor builtin on f32, modelled on rationals via the computable
rational floor. -/
def ffloor (q : ℚ) : ℚ := (Rat.floor q : ℚ)

/-- Truncation toward zero, as used by the WGSL float remainder. -/
def ftrunc (q : ℚ) : ℚ := if 0 ≤ q then (Rat.floor q : ℚ) else -((Rat.floor (-q) : ℚ))

/-- WGSL float remainder: x % y = x - y * trunc(x / y). -/
def fmod (a b : ℚ) : ℚ := a - b * ftrunc (a / b)

/-- The vertex list built by createSquareVertices, src/index.js lines 27-39:
two triangles covering a square of half-side size, interleaved x, y. -/
def createSquareVertices (s : ℚ) : List ℚ :=
  [-s, -s,
    s, -s,
    s,  s,
   -s, -s,
    s,  s,
   -s,  s]

/-- The vertex data actually uploaded, src/index.js line 50 (size 0.8). -/
def vertices : List ℚ := createSquareVertices (4/5)

/-- Contents of the uniform Float32Array, src/index.js line 125. -/
def uniformArray : List ℚ := [(GRID_SIZE : ℚ), (GRID_SIZE : ℚ)]

/-- The grid uniform the shader reads at group 0 binding 0; its value is the
uploaded uniformArray contents, src/index.js lines 76 and 125-131. -/
def grid : Vec2 := ⟨uniformArray.getD 0 0, uniformArray.getD 1 0⟩

/-- Input of the WGSL vertex stage: the location-0 position attribute and
the builtin instance index, src/index.js lines 66-69. -/
structure VertexInput where
  pos : Vec2
  instanceIndex : ℕ

/-- Output of the WGSL vertex stage: builtin clip-space position and the
location-0 cell coordinate passed to the fragment stage. -/
structure VertexOutput where
  pos : Vec4
  cell : Vec2
deriving DecidableEq

/-- The WGSL vertexMain function, src/index.js lines 80-92.  The cellState
storage-buffer binding is passed as a function from index to u32 value. -/
def vertexMain (cellState : ℕ → ℕ) (input : VertexInput) : VertexOutput :=
  let i : ℚ := (input.instanceIndex : ℚ)
  let cell : Vec2 := ⟨fmod i grid.x, ffloor (i / grid.x)⟩
  let state : ℚ := ((cellState input.instanceIndex : ℕ) : ℚ)
  let cellOffset : Vec2 := ⟨cell.x / grid.x * 2, cell.y / grid.y * 2⟩
  let gridPos : Vec2 :=
    ⟨(input.pos.x * state + 1) / grid.x - 1 + cellOffset.x,
     (input.pos.y * state + 1) / grid.y - 1 + cellOffset.y⟩
  { pos := ⟨gridPos.x, gridPos.y, 0, 1⟩, cell := cell }

/-- The WGSL fragmentMain function, src/index.js lines 94-98:
let c = cell / grid; return vec4f(c, 1 - c.x, 1). -/
def fragmentMain (input : VertexOutput) : Vec4 :=
  let c : Vec2 := ⟨input.cell.x / grid.x, input.cell.y / grid.y⟩
  ⟨c.x, c.y, 1 - c.x, 1⟩

/-- The cell-state loop of src/index.js lines 143-145: starting at index i
and stepping by 3, write 1 into the array while the index is in bounds. -/
def setEveryThird (a : Array ℕ) (i : ℕ) : Array ℕ :=
  if h : i < a.size then setEveryThird (a.set ⟨i, h⟩ 1) (i + 3) else a
termination_by a.size - i
decreasing_by simp [Array.size_set]; omega

/-- The Uint32Array of per-cell flags after the loop, src/index.js
lines 134 and 142-145: GRID_SIZE * GRID_SIZE zero-initialised entries,
then every third entry set to 1. -/
def cellStateArray : Array ℕ := setEveryThird (Array.mkArray (GRID_SIZE * GRID_SIZE) 0) 0

/-- In-bounds read of a cell-state entry (out-of-bounds defaults to 0;
the program only reads in bounds). -/
def cellAt (a : Array ℕ) (j : ℕ) : ℕ := if h : j < a.size then a[j] else 0

/-- Data carried by a writeBuffer call: a Float32Array or a Uint32Array,
each element 4 bytes wide. -/
inductive BufferData
  | floats (xs : List ℚ)
  | uints (xs : List ℕ)
deriving DecidableEq

/-- Byte length of a typed array (4 bytes per element). -/
def BufferData.byteLength : BufferData → ℕ
  | floats xs => 4 * xs.length
  | uints xs => 4 * xs.length

/-- One graphics-API operation performed by the script.  The destroyBuffer
operation exists in the modelled API surface but is never emitted by the
program. -/
inductive GpuOp
  | requestAdapter
  | requestDevice
  | configureContext
  | createBuffer (label : String) (size : ℕ)
  | writeBuffer (label : String) (offset : ℕ) (data : BufferData)
  | createShaderModule (label : String)
  | createRenderPipeline (label : String)
  | createBindGroup (label : String)
  | createCommandEncoder
  | beginRenderPass
  | setPipeline (label : String)
  | setVertexBuffer (slot : ℕ) (label : String)
  | setBindGroup (index : ℕ) (label : String)
  | draw (vertexCount : ℕ) (instanceCount : ℕ)
  | endPass
  | finishEncoder
  | submit (numBuffers : ℕ)
  | destroyBuffer (label : String)
deriving DecidableEq

/-- The two errors the script can throw, src/index.js lines 6-14. -/
inductive InitError
  | webgpuNotSupported
  | noAdapterFound
deriving DecidableEq

/-- Message attached to each thrown Error. -/
def InitError.message : InitError → String
  | webgpuNotSupported => "WebGPU not supported on this browser."
  | noAdapterFound => "No appropriate GPUAdapter found."

/-- The straight-line tail of the script once the two capability checks have
passed, src/index.js lines 16-189, one trace entry per graphics-API call in
source order. -/
def mainOps : List GpuOp :=
  [ .requestDevice,
    .configureContext,
    .createBuffer "Cell vertices" (4 * vertices.length),
    .writeBuffer "Cell vertices" 0 (.floats vertices),
    .createShaderModule "Cell shader",
    .createRenderPipeline "Cell pipeline",
    .createBuffer "Grid Uniforms" (4 * uniformArray.length),
    .writeBuffer "Grid Uniforms" 0 (.floats uniformArray),
    .createBuffer "Cell state" (4 * (GRID_SIZE * GRID_SIZE)),
    .writeBuffer "Cell state" 0 (.uints cellStateArray.toList),
    .createBindGroup "Cell renderer bind group",
    .createCommandEncoder,
    .beginRenderPass,
    .setPipeline "Cell pipeline",
    .setVertexBuffer 0 "Cell vertices",
    .setBindGroup 0 "Cell renderer bind group",
    .draw (vertices.length / 2) (GRID_SIZE * GRID_SIZE),
    .endPass,
    .finishEncoder,
    .submit 1 ]

/-- The whole script as a function of the two capability flags: whether
navigator.gpu exists and whether requestAdapter returned a non-null adapter.
Returns the graphics operations performed and the error thrown, if any.
Modelling assumptions: the DOM supplies the canvas element, and every
graphics-API call itself succeeds (calls are recorded, never failing); the
only throw statements in the whole script are the two capability checks at
src/index.js lines 6-14, which precede every graphics resource operation
except the requestAdapter call between them. -/
def runProgram (gpuPresent adapterPresent : Bool) : List GpuOp × Option InitError :=
  if gpuPresent = false then
    ([], some .webgpuNotSupported)
  else if adapterPresent = false then
    ([GpuOp.requestAdapter], some .noAdapterFound)
  else
    (GpuOp.requestAdapter :: mainOps, none)

/-- Recognise a draw operation. -/
def GpuOp.isDraw : GpuOp → Bool
  | .draw _ _ => true
  | _ => false

/-- Recognise the start of a render pass. -/
def GpuOp.isBeginRenderPass : GpuOp → Bool
  | .beginRenderPass => true
  | _ => false

/-- Recognise the creation of a command buffer (encoder.finish). -/
def GpuOp.isFinishEncoder : GpuOp → Bool
  | .finishEncoder => true
  | _ => false

/-- Recognise a queue submission. -/
def GpuOp.isSubmit : GpuOp → Bool
  | .submit _ => true
  | _ => false

/-- Recognise the creation of any buffer. -/
def GpuOp.isCreateBuffer : GpuOp → Bool
  | .createBuffer _ _ => true
  | _ => false

/-- Recognise the creation of the buffer with the given label. -/
def GpuOp.isCreateBufferL (l : String) : GpuOp → Bool
  | .createBuffer l' _ => l' == l
  | _ => false

/-- Recognise a write to the buffer with the given label. -/
def GpuOp.isWriteBufferL (l : String) : GpuOp → Bool
  | .writeBuffer l' _ _ => l' == l
  | _ => false

/-- Recognise the destruction of a buffer. -/
def GpuOp.isDestroyBuffer : GpuOp → Bool
  | .destroyBuffer _ => true
  | _ => false

/-- Recognise any buffer creation, pipeline creation, or draw command (the
operations claim C4 requires to be absent on the abort paths). -/
def GpuOp.isBufferPipelineOrDraw : GpuOp → Bool
  | .createBuffer _ _ => true
  | .createRenderPipeline _ => true
  | .draw _ _ => true
  | _ => false

theorem setEveryThird_size (a : Array ℕ) (i : ℕ) :
    (setEveryThird a i).size = a.size := by
  induction a, i using setEveryThird.induct with
  | _ a i =>
    rw [setEveryThird]
    split
    all_goals simp_all [Array.size_set]

theorem cellAt_set (a : Array ℕ) (i : ℕ) (h : i < a.size) (v j : ℕ) :
    cellAt (a.set ⟨i, h⟩ v) j = if j = i then v else cellAt a j := by
  unfold cellAt
  by_cases hj : j < a.size
  · rw [dif_pos (by simpa [Array.size_set] using hj), dif_pos hj,
      Array.getElem_set]
    by_cases hji : j = i
    · simp [hji]
    · rw [if_neg (fun hh : (i : ℕ) = j => hji hh.symm), if_neg hji]
  · rw [dif_neg (by simpa [Array.size_set] using hj), dif_neg hj,
      if_neg (by omega)]

theorem setEveryThird_cellAt (a : Array ℕ) (i j : ℕ) :
    cellAt (setEveryThird a i) j =
      if i ≤ j ∧ j < a.size ∧ (j - i) % 3 = 0 then 1 else cellAt a j := by
  induction a, i using setEveryThird.induct with
  | case1 a i h ih =>
    rw [setEveryThird, dif_pos h]
    rw [ih, cellAt_set, Array.size_set]
    by_cases hji : j = i
    · subst hji
      rw [if_neg (by omega), if_pos rfl, if_pos ⟨le_refl j, h, by omega⟩]
    · rw [if_neg hji]
      by_cases hc : i ≤ j ∧ j < a.size ∧ (j - i) % 3 = 0
      · rw [if_pos (by omega), if_pos hc]
      · rw [if_neg (by omega), if_neg hc]
  | case2 a i h =>
    rw [setEveryThird, dif_neg h]
    unfold cellAt
    by_cases hj : j < a.size
    · rw [if_neg (by omega)]
    · rw [if_neg (by omega)]

theorem cellAt_mkArray (n j : ℕ) : cellAt (Array.mkArray n 0) j = 0 := by
  unfold cellAt
  split
  · simp [Array.getElem_mkArray]
  · rfl

theorem cellStateArray_size : cellStateArray.size = GRID_SIZE * GRID_SIZE := by
  unfold cellStateArray
  rw [setEveryThird_size, Array.size_mkArray]

theorem cellAt_cellStateArray (j : ℕ) (hj : j < GRID_SIZE * GRID_SIZE) :
    cellAt cellStateArray j = if j % 3 = 0 then 1 else 0 := by
  unfold cellStateArray
  rw [setEveryThird_cellAt, cellAt_mkArray]
  simp only [Array.size_mkArray, Nat.sub_zero, Nat.zero_le, true_and]
  by_cases h3 : j % 3 = 0
  · rw [if_pos ⟨hj, h3⟩, if_pos h3]
  · rw [if_neg (by omega), if_neg h3]

theorem ratFloor_eq_intFloor (q : ℚ) : Rat.floor q = ⌊q⌋ := by
  rw [Rat.floor_def', Rat.floor_def]

/-- Claim C1: the uploaded cell-state array has exactly
GRID_SIZE * GRID_SIZE = 1024 entries; an entry is 1 exactly when its index
is divisible by 3 and is 0 otherwise; consequently for every index i with
i + 2 < 1024, exactly one of the entries at indices i, i + 1, i + 2
equals 1. -/
theorem cellState_one_active_per_three (i : ℕ) (h : i + 2 < GRID_SIZE * GRID_SIZE) :
    GRID_SIZE * GRID_SIZE = 1024 ∧
    cellStateArray.size = GRID_SIZE * GRID_SIZE ∧
    (∀ j, j < GRID_SIZE * GRID_SIZE →
      cellAt cellStateArray j = if j % 3 = 0 then 1 else 0) ∧
    (if cellAt cellStateArray i = 1 then 1 else 0) +
      (if cellAt cellStateArray (i + 1) = 1 then 1 else 0) +
      (if cellAt cellStateArray (i + 2) = 1 then 1 else 0) = 1 := by
  refine ⟨rfl, cellStateArray_size, fun j hj => cellAt_cellStateArray j hj, ?_⟩
  rw [cellAt_cellStateArray i (by omega), cellAt_cellStateArray (i + 1) (by omega),
    cellAt_cellStateArray (i + 2) (by omega)]
  have h3 : i % 3 = 0 ∨ i % 3 = 1 ∨ i % 3 = 2 := by omega
  rcases h3 with h3 | h3 | h3
  · have g1 : (i + 1) % 3 = 1 := by omega
    have g2 : (i + 2) % 3 = 2 := by omega
    simp [h3, g1, g2]
  · have g1 : (i + 1) % 3 = 2 := by omega
    have g2 : (i + 2) % 3 = 0 := by omega
    simp [h3, g1, g2]
  · have g1 : (i + 1) % 3 = 0 := by omega
    have g2 : (i + 2) % 3 = 1 := by omega
    simp [h3, g1, g2]

/-- Witness for claim C1, at index i = 0. -/
theorem cellState_one_active_per_three_witness :
    (0 + 2 < GRID_SIZE * GRID_SIZE) ∧
    (GRID_SIZE * GRID_SIZE = 1024 ∧
     cellStateArray.size = GRID_SIZE * GRID_SIZE ∧
     (∀ j, j < GRID_SIZE * GRID_SIZE →
       cellAt cellStateArray j = if j % 3 = 0 then 1 else 0) ∧
     (if cellAt cellStateArray 0 = 1 then 1 else 0) +
       (if cellAt cellStateArray (0 + 1) = 1 then 1 else 0) +
       (if cellAt cellStateArray (0 + 2) = 1 then 1 else 0) = 1) :=
  ⟨by decide, cellState_one_active_per_three 0 (by decide)⟩

/-- Claim C2 counterexample: changing the cell-state flag of an instance
never changes the fragment color the shader computes for it, so the claim
that the flag influences the color fails for every instance of the grid
(here exhibited on the first square vertex of each instance). -/
theorem fragment_color_ignores_state_flag :
    ¬ ∃ i : ℕ, i < GRID_SIZE * GRID_SIZE ∧
      fragmentMain (vertexMain (fun _ => 1) ⟨⟨-(4/5), -(4/5)⟩, i⟩) ≠
        fragmentMain (vertexMain (fun _ => 0) ⟨⟨-(4/5), -(4/5)⟩, i⟩) :=
  fun ⟨_, _, hne⟩ => hne rfl

/-- Claim C2 (amended): the fragment color computed for an instance is a
function of the instance's grid cell coordinates alone; the cell-state flag
(and the vertex position) do not influence the color, while the grid
position does (instances 0 and 1 get different colors). -/
theorem fragment_color_function_of_cell_only (cs cs' : ℕ → ℕ) (v v' : Vec2) (i : ℕ) :
    fragmentMain (vertexMain cs ⟨v, i⟩) = fragmentMain (vertexMain cs' ⟨v', i⟩) ∧
    fragmentMain (vertexMain cs ⟨v, 0⟩) ≠ fragmentMain (vertexMain cs ⟨v, 1⟩) := by
  refine ⟨rfl, ?_⟩
  intro hcontra
  have hx := congrArg Vec4.x hcontra
  simp only [fragmentMain, vertexMain, fmod, ftrunc, ffloor, ratFloor_eq_intFloor] at hx
  norm_num [grid, uniformArray, GRID_SIZE] at hx

/-- Claim C3: given a supported device (both capability checks pass; all
graphics-API calls succeed, which the trace model assumes), the program
performs its whole straight-line operation sequence and throws nothing. -/
theorem program_completes_without_throwing :
    (runProgram true true).2 = none ∧
    (runProgram true true).1 = GpuOp.requestAdapter :: mainOps :=
  ⟨rfl, rfl⟩

/-- Claim C4: the only abort paths are the two capability checks: the
program throws exactly when navigator.gpu is missing or the adapter is
null, each abort happens before any buffer, pipeline, or draw command is
created, and no other statement throws, retries, or recovers. -/
theorem single_unrecoverable_abort_path :
    runProgram false true = ([], some .webgpuNotSupported) ∧
    runProgram false false = ([], some .webgpuNotSupported) ∧
    runProgram true false = ([GpuOp.requestAdapter], some .noAdapterFound) ∧
    (∀ g a, ((runProgram g a).2 ≠ none ↔ (g = false ∨ a = false))) ∧
    (∀ g a, (runProgram g a).2 = none ∨
      ((runProgram g a).1.filter GpuOp.isBufferPipelineOrDraw).length = 0) := by
  decide

/-- Claim C5: over the whole execution exactly one draw command is issued,
inside exactly one render pass, in exactly one command buffer, submitted by
exactly one queue submission carrying one command buffer; no run of the
program ever issues a second draw. -/
theorem single_draw_submission :
    ((runProgram true true).1.filter GpuOp.isDraw).length = 1 ∧
    ((runProgram true true).1.filter GpuOp.isBeginRenderPass).length = 1 ∧
    ((runProgram true true).1.filter GpuOp.isFinishEncoder).length = 1 ∧
    (runProgram true true).1.filter GpuOp.isSubmit = [GpuOp.submit 1] ∧
    (∀ g a, ((runProgram g a).1.filter GpuOp.isDraw).length ≤ 1) := by
  decide

/-- Claim C6: the uniform buffer holds the grid dimensions, the two 32-bit
floats [GRID_SIZE, GRID_SIZE] = [32, 32] (8 bytes), written by exactly one
writeBuffer call; the grid uniform the shader functions read is the
constant vec2f(32, 32), the same for every instance by construction of the
binding. -/
theorem uniform_holds_grid_dimensions :
    uniformArray = [(32 : ℚ), 32] ∧
    BufferData.byteLength (.floats uniformArray) = 8 ∧
    ((runProgram true true).1.filter (GpuOp.isWriteBufferL "Grid Uniforms")).length = 1 ∧
    GpuOp.writeBuffer "Grid Uniforms" 0 (.floats uniformArray) ∈ (runProgram true true).1 ∧
    GpuOp.createBuffer "Grid Uniforms" (4 * uniformArray.length) ∈ (runProgram true true).1 ∧
    grid = ⟨32, 32⟩ := by
  refine ⟨?_, rfl, by decide, ?_, ?_, ?_⟩
  · norm_num [uniformArray, GRID_SIZE]
  · simp [runProgram, mainOps]
  · simp [runProgram, mainOps]
  · norm_num [grid, uniformArray, GRID_SIZE, List.getD, Vec2.mk.injEq]

/-- Claim C7: each of the three GPU buffers (vertex, uniform, cell-state
storage) is created exactly once and written exactly once by a single
writeBuffer call, there are no other buffer creations or writes, and no
buffer is ever destroyed on any run. -/
theorem buffers_created_once_written_once :
    ((runProgram true true).1.filter GpuOp.isCreateBuffer).length = 3 ∧
    ((runProgram true true).1.filter (GpuOp.isCreateBufferL "Cell vertices")).length = 1 ∧
    ((runProgram true true).1.filter (GpuOp.isCreateBufferL "Grid Uniforms")).length = 1 ∧
    ((runProgram true true).1.filter (GpuOp.isCreateBufferL "Cell state")).length = 1 ∧
    ((runProgram true true).1.filter (GpuOp.isWriteBufferL "Cell vertices")).length = 1 ∧
    ((runProgram true true).1.filter (GpuOp.isWriteBufferL "Grid Uniforms")).length = 1 ∧
    ((runProgram true true).1.filter (GpuOp.isWriteBufferL "Cell state")).length = 1 ∧
    ((runProgram true true).1.filter
      (fun op => GpuOp.isWriteBufferL "Cell vertices" op ||
        GpuOp.isWriteBufferL "Grid Uniforms" op ||
        GpuOp.isWriteBufferL "Cell state" op)).length = 3 ∧
    (∀ g a, ((runProgram g a).1.filter GpuOp.isDestroyBuffer).length = 0) := by
  decide

/-- Claim C8: the single draw call requests vertex count
vertices.length / 2 = 6 (createSquareVertices returns 12 floats) and
instance count GRID_SIZE * GRID_SIZE = 1024. -/
theorem draw_six_vertices_1024_instances :
    (createSquareVertices (4/5)).length = 12 ∧
    vertices.length / 2 = 6 ∧
    GRID_SIZE * GRID_SIZE = 1024 ∧
    (runProgram true true).1.filter GpuOp.isDraw = [GpuOp.draw 6 1024] := by
  decide

/-- Claim C9: an instance whose cell-state flag is 0 degenerates to a
single point: the vertex stage output position is independent of the input
vertex position and equals 1/grid - 1 + cellOffset componentwise, with
z = 0 and w = 1. -/
theorem inactive_cell_degenerates_to_point (cellState : ℕ → ℕ) (i : ℕ) (v v' : Vec2)
    (h : cellState i = 0) :
    (vertexMain cellState ⟨v, i⟩).pos = (vertexMain cellState ⟨v', i⟩).pos ∧
    (vertexMain cellState ⟨v, i⟩).pos =
      ⟨1 / grid.x - 1 + fmod (i : ℚ) grid.x / grid.x * 2,
       1 / grid.y - 1 + ffloor ((i : ℚ) / grid.x) / grid.y * 2, 0, 1⟩ := by
  have hpos : ∀ w : Vec2, (vertexMain cellState ⟨w, i⟩).pos =
      ⟨1 / grid.x - 1 + fmod (i : ℚ) grid.x / grid.x * 2,
       1 / grid.y - 1 + ffloor ((i : ℚ) / grid.x) / grid.y * 2, 0, 1⟩ := by
    intro w
    simp [vertexMain, h]
  exact ⟨(hpos v).trans (hpos v').symm, hpos v⟩

/-- Witness for claim C9: the all-inactive state at instance 5, with two
opposite corners of the square as vertex positions. -/
theorem inactive_cell_degenerates_to_point_witness :
    ((fun _ : ℕ => 0) 5 = 0) ∧
    ((vertexMain (fun _ : ℕ => 0) ⟨⟨-(4/5), -(4/5)⟩, 5⟩).pos =
        (vertexMain (fun _ : ℕ => 0) ⟨⟨4/5, 4/5⟩, 5⟩).pos ∧
     (vertexMain (fun _ : ℕ => 0) ⟨⟨-(4/5), -(4/5)⟩, 5⟩).pos =
       ⟨1 / grid.x - 1 + fmod ((5 : ℕ) : ℚ) grid.x / grid.x * 2,
        1 / grid.y - 1 + ffloor (((5 : ℕ) : ℚ) / grid.x) / grid.y * 2, 0, 1⟩) :=
  ⟨rfl, inactive_cell_degenerates_to_point (fun _ : ℕ => 0) 5 ⟨-(4/5), -(4/5)⟩ ⟨4/5, 4/5⟩ rfl⟩

/-- Claim C10: every fragment color is vec4f(c.x, c.y, 1 - c.x, 1) with
c = cell / grid, so its red and blue channels sum to exactly 1 and its
alpha channel is 1. -/
theorem fragment_color_opaque_red_blue_sum (input : VertexOutput) :
    (fragmentMain input).w = 1 ∧
    (fragmentMain input).x + (fragmentMain input).z = 1 ∧
    fragmentMain input =
      ⟨input.cell.x / grid.x, input.cell.y / grid.y, 1 - input.cell.x / grid.x, 1⟩ := by
  refine ⟨rfl, ?_, rfl⟩
  show input.cell.x / grid.x + (1 - input.cell.x / grid.x) = 1
  ring
